import Mathlib

/-!
Verification of the Document Text Extraction Service
(`src/ResumeBackend/app.py`), a single-endpoint Flask service that
receives a file upload, writes it to a temporary path, extracts its
text by file extension (`.pdf`, `.docx`, `.txt`), deletes the
temporary file and answers with JSON.

Shallow embedding conventions:
* The third-party parsing libraries (PyMuPDF/`fitz`, `python-docx`,
  the UTF-8 codec) are black boxes; an uploaded file's bytes are
  modelled by how each library would interpret them (`FileContent`):
  a list of page texts, a list of paragraph texts, a decoded string,
  each of which may instead be an exception carrying a message.
* The filesystem is a map from path strings to "exists" booleans;
  `file.save` and `os.remove` update it.  The handler additionally
  returns the ordered list of filesystem/extraction side effects
  (`Event`) it performed.
* Python truthiness is modelled explicitly: for strings, truthy means
  non-empty; `x or y` on an optional string is `pythonOr`.
-/

/-- How the parsing libraries interpret an uploaded file's bytes:
the pages PyMuPDF would read, the paragraphs python-docx would read
and the UTF-8 decoding; `.error m` is a raised exception whose
string form is `m`. -/
structure FileContent where
  pdfPages : Except String (List String)
  docxParas : Except String (List String)
  txtText : Except String String
deriving Repr

/-- The uploaded file: Werkzeug FileStorage's `filename` plus its bytes. -/
structure Upload where
  filename : String
  content : FileContent
deriving Repr

/-- The incoming request: `request.files` either holds a `file` field
or it does not. -/
structure Request where
  file : Option Upload
deriving Repr

/-- A JSON response body: `jsonify({'parsedText': ...})` or
`jsonify({'error': ...})`. -/
inductive Body where
  | parsedText (text : String)
  | error (msg : String)
deriving Repr, DecidableEq

/-- An HTTP response: status code and JSON body. -/
structure Response where
  status : Nat
  body : Body
deriving Repr, DecidableEq

/-- The filesystem, reduced to which paths exist. -/
def FS : Type := String → Bool

/-- A side effect of the handler, in execution order:
`file.save(p)`, `os.remove(p)`, or running the extraction routine
chosen for extension `ext`. -/
inductive Event where
  | save (p : String) | remove (p : String) | extract (ext : String)
deriving Repr, DecidableEq

/-- What one handler invocation produced: the HTTP response, the
filesystem after the request, and the ordered side effects. -/
structure HandlerOutput where
  response : Response
  fs : FS
  trace : List Event

/-- Python `str.lower()`; its action is per character, which on the
ASCII extensions compared by the handler agrees with `Char.toLower`. -/
def pyLower (s : String) : String :=
  ⟨s.data.map Char.toLower⟩

/-- Python `str.endswith(t)`: is `t` a suffix of `s`? -/
def pyEndsWith (s t : String) : Bool :=
  t.data.isSuffixOf s.data

/-- Does the string start with the character `c`? -/
def headIs (s : String) (c : Char) : Bool :=
  match s.data with
  | [] => false
  | c0 :: _ => c0 = c

/-- `os.path.join(a, b)` under POSIX semantics for one component:
an absolute `b` discards `a`. -/
def osPathJoin (a b : String) : String :=
  if headIs b '/' then b
  else if a = "" then b
  else if pyEndsWith a "/" then a ++ b
  else a ++ "/" ++ b

/-- `UPLOAD_FOLDER = 'uploadresume'`. -/
def UPLOAD_FOLDER : String := "uploadresume"

/-- Python `x or y` for an optional string `x` whose absence is `None`:
`None` and the empty string are falsy. -/
def pythonOr (x : Option String) (y : String) : String :=
  match x with
  | some s => if s = "" then y else s
  | none => y

/-- `extract_text_from_pdf`: if `fitz` is `None` return
`(None, "PyMuPDF library is not available for PDF parsing.")`;
otherwise concatenate `page.get_text()` over the pages in order, or
convert a raised exception `e` into
`(None, "Error extracting text from PDF: " + e)`. -/
def extract_text_from_pdf (fitzAvailable : Bool) (c : FileContent) :
    Option String × Option String :=
  if fitzAvailable = false then
    (none, some "PyMuPDF library is not available for PDF parsing.")
  else
    match c.pdfPages with
    | .ok pages => (some (pages.foldl (fun text t => text ++ t) ""), none)
    | .error e => (none, some ("Error extracting text from PDF: " ++ e))

/-- `extract_text_from_docx`: concatenate `paragraph.text + "\n"` over
the paragraphs in order, or convert a raised exception `e` into
`(None, "Error extracting text from DOCX: " + e)`. -/
def extract_text_from_docx (c : FileContent) :
    Option String × Option String :=
  match c.docxParas with
  | .ok paras => (some (paras.foldl (fun text p => text ++ p ++ "\n") ""), none)
  | .error e => (none, some ("Error extracting text from DOCX: " ++ e))

/-- Werkzeug `FileStorage.__bool__` is `bool(self.filename)`:
the `if file:` guard in the handler. -/
def fileTruthy (u : Upload) : Bool :=
  u.filename != ""

/-- The tail the three extraction branches share: `os.remove(filepath)`,
then `200 {'parsedText': ...}` when `extracted_text` is truthy
(non-`None` and non-empty), else `500 {'error': error_message or
'Failed to extract ...'}`. -/
def respondAfterExtraction (filepath : String) (fs1 : FS) (tr : List Event)
    (extracted_text error_message : Option String) : HandlerOutput :=
  let fs2 : FS := fun p => if p = filepath then false else fs1 p
  let tr2 := tr ++ [Event.remove filepath]
  match extracted_text with
  | some text =>
      if text = "" then
        ⟨⟨500, Body.error (pythonOr error_message
          "Failed to extract text from the document. The file might be corrupted or in an unsupported format.")⟩,
          fs2, tr2⟩
      else
        ⟨⟨200, Body.parsedText text⟩, fs2, tr2⟩
  | none =>
      ⟨⟨500, Body.error (pythonOr error_message
        "Failed to extract text from the document. The file might be corrupted or in an unsupported format.")⟩,
        fs2, tr2⟩

/-- The `/parse_document` POST handler `parse_document` of
`src/ResumeBackend/app.py`, as a function of the PDF-backend
availability flag (`fitz is not None`), the request and the
filesystem. -/
def parse_document (fitzAvailable : Bool) (req : Request) (fs : FS) :
    HandlerOutput :=
  match req.file with
  | none => ⟨⟨400, Body.error "No file part in the request"⟩, fs, []⟩
  | some file =>
    if file.filename = "" then
      ⟨⟨400, Body.error "No selected file"⟩, fs, []⟩
    else if fileTruthy file then
      let filename := file.filename
      let filepath := osPathJoin UPLOAD_FOLDER filename
      let fs1 : FS := fun p => if p = filepath then true else fs p
      if pyEndsWith (pyLower filename) ".pdf" then
        let r := extract_text_from_pdf fitzAvailable file.content
        respondAfterExtraction filepath fs1
          [Event.save filepath, Event.extract ".pdf"] r.1 r.2
      else if pyEndsWith (pyLower filename) ".docx" then
        let r := extract_text_from_docx file.content
        respondAfterExtraction filepath fs1
          [Event.save filepath, Event.extract ".docx"] r.1 r.2
      else if pyEndsWith (pyLower filename) ".txt" then
        match file.content.txtText with
        | .ok t =>
            respondAfterExtraction filepath fs1
              [Event.save filepath, Event.extract ".txt"] (some t) none
        | .error e =>
            respondAfterExtraction filepath fs1
              [Event.save filepath, Event.extract ".txt"] none
              (some ("Error reading TXT file: " ++ e))
      else
        ⟨⟨400, Body.error "Unsupported file type. Please upload a PDF, DOCX, or TXT file."⟩,
          fun p => if p = filepath then false else fs1 p,
          [Event.save filepath, Event.remove filepath]⟩
    else
      ⟨⟨500, Body.error "An unexpected error occurred."⟩, fs, []⟩

/-- The generic failure string of the handler's 500 response. -/
def genericFailureMsg : String :=
  "Failed to extract text from the document. The file might be corrupted or in an unsupported format."

/-- Is the filename's lowercased extension one of the three the
handler dispatches on? -/
def supportedExtension (filename : String) : Bool :=
  pyEndsWith (pyLower filename) ".pdf" || pyEndsWith (pyLower filename) ".docx" ||
    pyEndsWith (pyLower filename) ".txt"

/-- The `(extracted_text, error_message)` pair the handler's extension
branch computes for an upload, restated outside the handler so the
claims can speak about "the extraction outcome" of a request. -/
def extractionOutcome (fitzAvailable : Bool) (u : Upload) :
    Option String × Option String :=
  if pyEndsWith (pyLower u.filename) ".pdf" then
    extract_text_from_pdf fitzAvailable u.content
  else if pyEndsWith (pyLower u.filename) ".docx" then
    extract_text_from_docx u.content
  else if pyEndsWith (pyLower u.filename) ".txt" then
    match u.content.txtText with
    | .ok t => (some t, none)
    | .error e => (none, some ("Error reading TXT file: " ++ e))
  else (none, none)

/-- The spec's step 5, stated from its own words for comparison with
the handler: respond `200 {parsedText: text}` when extraction produced
non-empty text, else `500 {error: message}` where `message` is the
captured extraction error message, defaulting to the generic failure
string when none was captured. -/
def specStep5Response (r : Option String × Option String) : Response :=
  match r.1 with
  | some text =>
      if text = "" then ⟨500, Body.error (r.2.getD genericFailureMsg)⟩
      else ⟨200, Body.parsedText text⟩
  | none => ⟨500, Body.error (r.2.getD genericFailureMsg)⟩

/-- The spec's per-type concatenation rule, stated from its own words:
the text a successful extraction yields (every page's text in order
for `.pdf`, every paragraph's text followed by a newline for `.docx`,
the decoded text verbatim for `.txt`); `none` when the extension is
unsupported or the routine for it does not succeed. -/
def specConcatRule (fitzAvailable : Bool) (u : Upload) : Option String :=
  if pyEndsWith (pyLower u.filename) ".pdf" then
    if fitzAvailable then
      match u.content.pdfPages with
      | .ok pages => some (pages.foldl (fun text t => text ++ t) "")
      | .error _ => none
    else none
  else if pyEndsWith (pyLower u.filename) ".docx" then
    match u.content.docxParas with
    | .ok paras => some (paras.foldl (fun text p => text ++ p ++ "\n") "")
    | .error _ => none
  else if pyEndsWith (pyLower u.filename) ".txt" then
    match u.content.txtText with
    | .ok t => some t
    | .error _ => none
  else none

/-- Test fixture: the filesystem on which no path exists. -/
def emptyFS : FS := fun _ => false

/-- Test fixture: bytes only the UTF-8 reader accepts, decoding to `t`. -/
def txtFile (t : String) : FileContent :=
  ⟨Except.error "not a PDF", Except.error "not a DOCX", Except.ok t⟩

/-- Test fixture: bytes python-docx opens as the given paragraphs. -/
def docxFile (paras : List String) : FileContent :=
  ⟨Except.error "not a PDF", Except.ok paras, Except.error "binary file"⟩

/-- Test fixture: bytes PyMuPDF opens as the given page texts. -/
def pdfFile (pages : List String) : FileContent :=
  ⟨Except.ok pages, Except.error "not a DOCX", Except.error "binary file"⟩

/-! ## Helper lemmas -/

theorem fileTruthy_of_ne (u : Upload) (h : u.filename ≠ "") : fileTruthy u = true := by
  simp [fileTruthy, h]

theorem append_ne_empty_left (s t : String) (h : s ≠ "") : s ++ t ≠ "" := by
  intro he
  apply h
  apply String.ext
  have hd := congrArg String.data he
  rw [String.data_append] at hd
  exact (List.append_eq_nil.mp hd).1

theorem pythonOr_eq_getD (x : Option String) (y : String)
    (h : ∀ s, x = some s → s ≠ "") : pythonOr x y = x.getD y := by
  cases x with
  | none => rfl
  | some s => simp [pythonOr, h s rfl]

theorem extract_text_from_pdf_error_cases (f : Bool) (c : FileContent) (s : String)
    (hs : (extract_text_from_pdf f c).2 = some s) :
    s = "PyMuPDF library is not available for PDF parsing." ∨
      ∃ e, s = "Error extracting text from PDF: " ++ e := by
  cases f with
  | false =>
    simp [extract_text_from_pdf] at hs
    exact Or.inl hs.symm
  | true =>
    cases hp : c.pdfPages with
    | ok pages => simp [extract_text_from_pdf, hp] at hs
    | error e =>
      simp [extract_text_from_pdf, hp] at hs
      exact Or.inr ⟨e, hs.symm⟩

theorem extract_text_from_docx_error_cases (c : FileContent) (s : String)
    (hs : (extract_text_from_docx c).2 = some s) :
    ∃ e, s = "Error extracting text from DOCX: " ++ e := by
  cases hp : c.docxParas with
  | ok paras => simp [extract_text_from_docx, hp] at hs
  | error e =>
    simp [extract_text_from_docx, hp] at hs
    exact ⟨e, hs.symm⟩

theorem extractionOutcome_error_ne_empty (f : Bool) (u : Upload) (s : String)
    (hs : (extractionOutcome f u).2 = some s) : s ≠ "" := by
  rw [extractionOutcome] at hs
  by_cases h1 : pyEndsWith (pyLower u.filename) ".pdf" = true
  · rw [if_pos h1] at hs
    rcases extract_text_from_pdf_error_cases f u.content s hs with h | ⟨e, he⟩
    · rw [h]; decide
    · rw [he]; exact append_ne_empty_left _ _ (by decide)
  · rw [if_neg h1] at hs
    by_cases h2 : pyEndsWith (pyLower u.filename) ".docx" = true
    · rw [if_pos h2] at hs
      rcases extract_text_from_docx_error_cases u.content s hs with ⟨e, he⟩
      rw [he]; exact append_ne_empty_left _ _ (by decide)
    · rw [if_neg h2] at hs
      by_cases h3 : pyEndsWith (pyLower u.filename) ".txt" = true
      · rw [if_pos h3] at hs
        cases ht : u.content.txtText with
        | ok t => simp [ht] at hs
        | error e =>
          simp [ht] at hs
          rw [hs.symm]; exact append_ne_empty_left _ _ (by decide)
      · rw [if_neg h3] at hs
        simp at hs

theorem respondAfterExtraction_response (fp : String) (fs1 : FS) (tr : List Event)
    (t e : Option String) (he : ∀ s, e = some s → s ≠ "") :
    (respondAfterExtraction fp fs1 tr t e).response = specStep5Response (t, e) := by
  cases t with
  | none =>
    simp [respondAfterExtraction, specStep5Response, pythonOr_eq_getD e _ he,
      genericFailureMsg]
  | some text =>
    by_cases ht : text = "" <;>
      simp [respondAfterExtraction, specStep5Response, ht, pythonOr_eq_getD e _ he,
        genericFailureMsg]

theorem respondAfterExtraction_fs (fp : String) (fs1 : FS) (tr : List Event)
    (t e : Option String) : (respondAfterExtraction fp fs1 tr t e).fs fp = false := by
  cases t with
  | none => simp [respondAfterExtraction]
  | some text => by_cases ht : text = "" <;> simp [respondAfterExtraction, ht]

/-! ## Claims -/

/-- C1: for every request that reaches the extraction step (a file is
present, its filename is non-empty and carries a supported extension),
`parse_document` responds `200 {parsedText: text}` when the extraction
produced non-empty text, and otherwise `500 {error: message}` where
`message` is the captured extraction error message, or the generic
fallback string when none was captured. -/
theorem parse_document_step5_response (f : Bool) (u : Upload) (fs : FS)
    (hne : u.filename ≠ "") (hsup : supportedExtension u.filename = true) :
    (parse_document f ⟨some u⟩ fs).response =
      specStep5Response (extractionOutcome f u) := by
  have ht := fileTruthy_of_ne u hne
  have he : ∀ s, (extractionOutcome f u).2 = some s → s ≠ "" :=
    fun s hs => extractionOutcome_error_ne_empty f u s hs
  cases h1 : pyEndsWith (pyLower u.filename) ".pdf" with
  | true =>
    have hout : extractionOutcome f u = extract_text_from_pdf f u.content := by
      rw [extractionOutcome, if_pos h1]
    rw [hout] at he
    simp [parse_document, hne, ht, h1]
    rw [hout]
    exact respondAfterExtraction_response _ _ _ _ _ he
  | false =>
    cases h2 : pyEndsWith (pyLower u.filename) ".docx" with
    | true =>
      have hout : extractionOutcome f u = extract_text_from_docx u.content := by
        rw [extractionOutcome, if_neg (by simp [h1]), if_pos h2]
      rw [hout] at he
      simp [parse_document, hne, ht, h1, h2]
      rw [hout]
      exact respondAfterExtraction_response _ _ _ _ _ he
    | false =>
      cases h3 : pyEndsWith (pyLower u.filename) ".txt" with
      | true =>
        cases htt : u.content.txtText with
        | ok t =>
          have hout : extractionOutcome f u = (some t, none) := by
            rw [extractionOutcome, if_neg (by simp [h1]), if_neg (by simp [h2]),
              if_pos h3, htt]
          rw [hout] at he
          simp [parse_document, hne, ht, h1, h2, h3, htt]
          rw [hout]
          exact respondAfterExtraction_response _ _ _ _ _ he
        | error e =>
          have hout : extractionOutcome f u =
              (none, some ("Error reading TXT file: " ++ e)) := by
            rw [extractionOutcome, if_neg (by simp [h1]), if_neg (by simp [h2]),
              if_pos h3, htt]
          rw [hout] at he
          simp [parse_document, hne, ht, h1, h2, h3, htt]
          rw [hout]
          exact respondAfterExtraction_response _ _ _ _ _ he
      | false =>
        rw [supportedExtension, h1, h2, h3] at hsup
        simp at hsup

/-- C1 witness: a `.txt` upload decoding to `"hi"` takes the claimed
response, which evaluates to `200 {parsedText: "hi"}`. -/
theorem parse_document_step5_response_witness :
    (parse_document true ⟨some ⟨"r.txt", txtFile "hi"⟩⟩ emptyFS).response =
        specStep5Response (extractionOutcome true ⟨"r.txt", txtFile "hi"⟩) ∧
      specStep5Response (extractionOutcome true ⟨"r.txt", txtFile "hi"⟩) =
        ⟨200, Body.parsedText "hi"⟩ :=
  ⟨parse_document_step5_response true ⟨"r.txt", txtFile "hi"⟩ emptyFS (by decide)
      (by decide),
    by decide⟩

/-- C2: for every request in which a file with a non-empty filename
was uploaded, the temporary file written for that upload no longer
exists when the response is returned, on every path (successful
extraction, extraction failure, unsupported file type). -/
theorem parse_document_temp_file_removed (f : Bool) (u : Upload) (fs : FS)
    (hne : u.filename ≠ "") :
    (parse_document f ⟨some u⟩ fs).fs (osPathJoin UPLOAD_FOLDER u.filename) = false := by
  have ht := fileTruthy_of_ne u hne
  cases h1 : pyEndsWith (pyLower u.filename) ".pdf" with
  | true => simp [parse_document, hne, ht, h1, respondAfterExtraction_fs]
  | false =>
    cases h2 : pyEndsWith (pyLower u.filename) ".docx" with
    | true => simp [parse_document, hne, ht, h1, h2, respondAfterExtraction_fs]
    | false =>
      cases h3 : pyEndsWith (pyLower u.filename) ".txt" with
      | true =>
        cases htt : u.content.txtText with
        | ok t =>
          simp [parse_document, hne, ht, h1, h2, h3, htt, respondAfterExtraction_fs]
        | error e =>
          simp [parse_document, hne, ht, h1, h2, h3, htt, respondAfterExtraction_fs]
      | false => simp [parse_document, hne, ht, h1, h2, h3]

/-- C2 witness: after a `.docx` upload, the temporary file's path no
longer exists. -/
theorem parse_document_temp_file_removed_witness :
    (parse_document true ⟨some ⟨"cv2.docx", docxFile ["A"]⟩⟩ emptyFS).fs
      (osPathJoin UPLOAD_FOLDER "cv2.docx") = false :=
  parse_document_temp_file_removed true ⟨"cv2.docx", docxFile ["A"]⟩ emptyFS (by decide)

/-- C3: when the PDF backend is unavailable at startup, every upload
whose filename ends in `.pdf` (case-insensitively) gets a 500 response
whose message says the library is unavailable; being an equation about
a total function, no unhandled fault is possible. -/
theorem parse_document_pdf_backend_unavailable (u : Upload) (fs : FS)
    (hne : u.filename ≠ "") (hpdf : pyEndsWith (pyLower u.filename) ".pdf" = true) :
    (parse_document false ⟨some u⟩ fs).response =
      ⟨500, Body.error "PyMuPDF library is not available for PDF parsing."⟩ := by
  have ht := fileTruthy_of_ne u hne
  simp [parse_document, hne, ht, hpdf, extract_text_from_pdf, respondAfterExtraction,
    pythonOr]

/-- C3 witness: an uppercase `.PDF` upload with the backend missing. -/
theorem parse_document_pdf_backend_unavailable_witness :
    (parse_document false ⟨some ⟨"cv.PDF", pdfFile ["text"]⟩⟩ emptyFS).response =
      ⟨500, Body.error "PyMuPDF library is not available for PDF parsing."⟩ :=
  parse_document_pdf_backend_unavailable ⟨"cv.PDF", pdfFile ["text"]⟩ emptyFS
    (by decide) (by decide)

theorem pyEndsWith_txt_not_pdf (s : String)
    (h : pyEndsWith s ".txt" = true) : pyEndsWith s ".pdf" = false := by
  cases hp : pyEndsWith s ".pdf" with
  | false => rfl
  | true =>
    exfalso
    simp only [pyEndsWith] at h hp
    have h1 : ".txt".data <:+ s.data := List.isSuffixOf_iff_suffix.mp h
    have h2 : ".pdf".data <:+ s.data := List.isSuffixOf_iff_suffix.mp hp
    rcases List.suffix_or_suffix_of_suffix h1 h2 with hc | hc
    · exact absurd hc (by decide)
    · exact absurd hc (by decide)

theorem pyEndsWith_txt_not_docx (s : String)
    (h : pyEndsWith s ".txt" = true) : pyEndsWith s ".docx" = false := by
  cases hp : pyEndsWith s ".docx" with
  | false => rfl
  | true =>
    exfalso
    simp only [pyEndsWith] at h hp
    have h1 : ".txt".data <:+ s.data := List.isSuffixOf_iff_suffix.mp h
    have h2 : ".docx".data <:+ s.data := List.isSuffixOf_iff_suffix.mp hp
    rcases List.suffix_or_suffix_of_suffix h1 h2 with hc | hc
    · exact absurd hc (by decide)
    · exact absurd hc (by decide)

/-- C4 counterexample: a `.docx` with zero paragraphs is opened
successfully and its extraction routine succeeds (with empty text),
yet the handler answers 500, not 200 — the claim's "extraction
succeeds implies 200 with non-empty parsedText" fails. -/
theorem parse_document_empty_docx_returns_500 :
    extract_text_from_docx (docxFile []) = (some "", none) ∧
      (parse_document true ⟨some ⟨"cv.docx", docxFile []⟩⟩ emptyFS).response =
        ⟨500, Body.error genericFailureMsg⟩ := by
  constructor
  · rfl
  · decide

/-- C4 (amended): for every upload of a supported type whose
extraction routine succeeds with non-empty text, the handler returns
200 and `parsedText` equals the concatenation rule for that type. -/
theorem parse_document_success_200 (f : Bool) (u : Upload) (fs : FS) (s : String)
    (hne : u.filename ≠ "") (hc : specConcatRule f u = some s) (hs : s ≠ "") :
    (parse_document f ⟨some u⟩ fs).response = ⟨200, Body.parsedText s⟩ := by
  have ht := fileTruthy_of_ne u hne
  cases h1 : pyEndsWith (pyLower u.filename) ".pdf" with
  | true =>
    cases f with
    | false => simp [specConcatRule, h1] at hc
    | true =>
      cases hp : u.content.pdfPages with
      | error e => simp [specConcatRule, h1, hp] at hc
      | ok pages =>
        simp [specConcatRule, h1, hp] at hc
        simp [parse_document, hne, ht, h1, extract_text_from_pdf, hp,
          respondAfterExtraction, hc, hs]
  | false =>
    cases h2 : pyEndsWith (pyLower u.filename) ".docx" with
    | true =>
      cases hp : u.content.docxParas with
      | error e => simp [specConcatRule, h1, h2, hp] at hc
      | ok paras =>
        simp [specConcatRule, h1, h2, hp] at hc
        simp [parse_document, hne, ht, h1, h2, extract_text_from_docx, hp,
          respondAfterExtraction, hc, hs]
    | false =>
      cases h3 : pyEndsWith (pyLower u.filename) ".txt" with
      | true =>
        cases htt : u.content.txtText with
        | error e => simp [specConcatRule, h1, h2, h3, htt] at hc
        | ok t =>
          simp [specConcatRule, h1, h2, h3, htt] at hc
          simp [parse_document, hne, ht, h1, h2, h3, htt, respondAfterExtraction,
            hc, hs]
      | false => simp [specConcatRule, h1, h2, h3] at hc

/-- C4 witness: a two-page PDF whose page texts concatenate to
`"Hello World"` is answered with `200 {parsedText: "Hello World"}`. -/
theorem parse_document_success_200_witness :
    (parse_document true ⟨some ⟨"cv.pdf", pdfFile ["Hello ", "World"]⟩⟩ emptyFS).response =
      ⟨200, Body.parsedText "Hello World"⟩ :=
  parse_document_success_200 true ⟨"cv.pdf", pdfFile ["Hello ", "World"]⟩ emptyFS
    "Hello World" (by decide) (by decide) (by decide)

/-- C5: an upload whose non-empty filename ends in none of the three
supported extensions gets `400` with the unsupported-type message; its
trace is exactly a save followed by one remove of the temporary file
(so the shared step-4 deletion and every extraction routine are
skipped), and the temporary file does not exist afterwards. -/
theorem parse_document_unsupported_type (f : Bool) (u : Upload) (fs : FS)
    (hne : u.filename ≠ "")
    (h1 : pyEndsWith (pyLower u.filename) ".pdf" = false)
    (h2 : pyEndsWith (pyLower u.filename) ".docx" = false)
    (h3 : pyEndsWith (pyLower u.filename) ".txt" = false) :
    (parse_document f ⟨some u⟩ fs).response =
        ⟨400, Body.error "Unsupported file type. Please upload a PDF, DOCX, or TXT file."⟩ ∧
      (parse_document f ⟨some u⟩ fs).trace =
        [Event.save (osPathJoin UPLOAD_FOLDER u.filename),
          Event.remove (osPathJoin UPLOAD_FOLDER u.filename)] ∧
      (parse_document f ⟨some u⟩ fs).fs (osPathJoin UPLOAD_FOLDER u.filename) = false := by
  have ht := fileTruthy_of_ne u hne
  refine ⟨?_, ?_, ?_⟩ <;> simp [parse_document, hne, ht, h1, h2, h3]

/-- C5 witness: the spec's `notes.xyz` example. -/
theorem parse_document_unsupported_type_witness :
    (parse_document true ⟨some ⟨"notes.xyz", txtFile "x"⟩⟩ emptyFS).response =
        ⟨400, Body.error "Unsupported file type. Please upload a PDF, DOCX, or TXT file."⟩ ∧
      (parse_document true ⟨some ⟨"notes.xyz", txtFile "x"⟩⟩ emptyFS).trace =
        [Event.save (osPathJoin UPLOAD_FOLDER "notes.xyz"),
          Event.remove (osPathJoin UPLOAD_FOLDER "notes.xyz")] ∧
      (parse_document true ⟨some ⟨"notes.xyz", txtFile "x"⟩⟩ emptyFS).fs
        (osPathJoin UPLOAD_FOLDER "notes.xyz") = false :=
  parse_document_unsupported_type true ⟨"notes.xyz", txtFile "x"⟩ emptyFS
    (by decide) (by decide) (by decide) (by decide)

/-- C6: whenever the DOCX library opens the file successfully, the
extracted text is the concatenation, in document order, of each
paragraph's text followed by a newline. -/
theorem extract_text_from_docx_concat (c : FileContent) (paras : List String)
    (h : c.docxParas = Except.ok paras) :
    extract_text_from_docx c =
      (some (paras.foldl (fun text p => text ++ p ++ "\n") ""), none) := by
  simp [extract_text_from_docx, h]

/-- C6 witness: paragraphs `["A", "B"]` extract to `"A\nB\n"`, and the
handler returns it as `parsedText`. -/
theorem extract_text_from_docx_concat_witness :
    extract_text_from_docx (docxFile ["A", "B"]) = (some "A\nB\n", none) ∧
      (parse_document true ⟨some ⟨"cv3.docx", docxFile ["A", "B"]⟩⟩ emptyFS).response =
        ⟨200, Body.parsedText "A\nB\n"⟩ :=
  ⟨extract_text_from_docx_concat (docxFile ["A", "B"]) ["A", "B"] rfl, by decide⟩

/-- C7 counterexample: an empty `.txt` file decodes as UTF-8, but the
handler answers `500` with the generic failure message instead of
returning the (empty) content as `parsedText` — empty extracted text
is falsy in Python. -/
theorem parse_document_empty_txt_returns_500 :
    (parse_document true ⟨some ⟨"empty.txt", txtFile ""⟩⟩ emptyFS).response =
      ⟨500, Body.error genericFailureMsg⟩ := by
  decide

/-- C7 (amended): for every `.txt` upload that decodes as UTF-8 to
non-empty text, the handler returns `200` and `parsedText` is the
file's content verbatim. -/
theorem parse_document_txt_verbatim (f : Bool) (u : Upload) (fs : FS) (t : String)
    (hne : u.filename ≠ "") (htxt : pyEndsWith (pyLower u.filename) ".txt" = true)
    (hok : u.content.txtText = Except.ok t) (hnm : t ≠ "") :
    (parse_document f ⟨some u⟩ fs).response = ⟨200, Body.parsedText t⟩ := by
  have ht := fileTruthy_of_ne u hne
  have h1 := pyEndsWith_txt_not_pdf _ htxt
  have h2 := pyEndsWith_txt_not_docx _ htxt
  simp [parse_document, hne, ht, h1, h2, htxt, hok, respondAfterExtraction, hnm]

/-- C7 witness: the spec's example `"hello\nworld"`. -/
theorem parse_document_txt_verbatim_witness :
    (parse_document true ⟨some ⟨"b.txt", txtFile "hello\nworld"⟩⟩ emptyFS).response =
      ⟨200, Body.parsedText "hello\nworld"⟩ :=
  parse_document_txt_verbatim true ⟨"b.txt", txtFile "hello\nworld"⟩ emptyFS
    "hello\nworld" (by decide) (by decide) rfl (by decide)

theorem pythonOr_ne (x : Option String) (y m : String) (hy : y ≠ m)
    (hx : ∀ s, x = some s → s ≠ m) : pythonOr x y ≠ m := by
  cases x with
  | none => exact hy
  | some s =>
    show (if s = "" then y else s) ≠ m
    by_cases hs : s = ""
    · rw [if_pos hs]; exact hy
    · rw [if_neg hs]; exact hx s rfl

theorem respondAfterExtraction_response_ne (fp : String) (fs1 : FS) (tr : List Event)
    (t e : Option String) (m : String)
    (hg : "Failed to extract text from the document. The file might be corrupted or in an unsupported format." ≠ m)
    (he : ∀ s, e = some s → s ≠ m) :
    (respondAfterExtraction fp fs1 tr t e).response ≠ ⟨500, Body.error m⟩ := by
  cases t with
  | none =>
    simp [respondAfterExtraction]
    exact pythonOr_ne e _ m hg he
  | some text =>
    by_cases htx : text = ""
    · simp [respondAfterExtraction, htx]
      exact pythonOr_ne e _ m hg he
    · simp [respondAfterExtraction, htx]

theorem pdf_error_msg_ne_unexpected (e : String) :
    ("Error extracting text from PDF: " ++ e) ≠ "An unexpected error occurred." := by
  intro h
  have hd := congrArg String.data h
  simp [String.data_append] at hd

theorem docx_error_msg_ne_unexpected (e : String) :
    ("Error extracting text from DOCX: " ++ e) ≠ "An unexpected error occurred." := by
  intro h
  have hd := congrArg String.data h
  simp [String.data_append] at hd

theorem txt_error_msg_ne_unexpected (e : String) :
    ("Error reading TXT file: " ++ e) ≠ "An unexpected error occurred." := by
  intro h
  have hd := congrArg String.data h
  simp [String.data_append] at hd

/-- C8: the final fallback branch of the handler (500 with "An
unexpected error occurred.") is unreachable — once the two input
checks pass, the `if file:` guard is true, so no request, whatever its
content or the backend's state, ever receives that response. -/
theorem parse_document_fallback_unreachable (f : Bool) (req : Request) (fs : FS) :
    ((parse_document f req fs).response ==
      ({ status := 500, body := Body.error "An unexpected error occurred." } : Response)) =
      false := by
  rw [beq_eq_false_iff_ne]
  rcases req with ⟨file⟩
  cases file with
  | none => simp [parse_document]
  | some u =>
    by_cases hne : u.filename = ""
    · simp [parse_document, hne]
    · have ht := fileTruthy_of_ne u hne
      cases h1 : pyEndsWith (pyLower u.filename) ".pdf" with
      | true =>
        simp only [parse_document, hne, ht, h1]
        simp
        apply respondAfterExtraction_response_ne
        · decide
        · intro s hs
          rcases extract_text_from_pdf_error_cases f u.content s hs with h | ⟨e, hee⟩
          · rw [h]; decide
          · rw [hee]; exact pdf_error_msg_ne_unexpected e
      | false =>
        cases h2 : pyEndsWith (pyLower u.filename) ".docx" with
        | true =>
          simp only [parse_document, hne, ht, h1, h2]
          simp [hne]
          apply respondAfterExtraction_response_ne
          · decide
          · intro s hs
            rcases extract_text_from_docx_error_cases u.content s hs with ⟨e, hee⟩
            rw [hee]; exact docx_error_msg_ne_unexpected e
        | false =>
          cases h3 : pyEndsWith (pyLower u.filename) ".txt" with
          | true =>
            cases htt : u.content.txtText with
            | ok t =>
              simp only [parse_document, hne, ht, h1, h2, h3, htt]
              simp [hne]
              apply respondAfterExtraction_response_ne
              · decide
              · intro s hs
                simp at hs
            | error e =>
              simp only [parse_document, hne, ht, h1, h2, h3, htt]
              simp [hne]
              apply respondAfterExtraction_response_ne
              · decide
              · intro s hs
                simp at hs
                rw [← hs]
                exact txt_error_msg_ne_unexpected e
          | false =>
            simp [parse_document, hne, ht, h1, h2, h3]

/-- C9: a request rejected for a missing file field or an empty
filename is answered 400 before `file.save` runs: the filesystem is
returned unchanged and the side-effect trace is empty. -/
theorem parse_document_reject_no_side_effects (f : Bool) (req : Request) (fs : FS)
    (h : req.file = none ∨ ∃ u, req.file = some u ∧ u.filename = "") :
    (parse_document f req fs).fs = fs ∧ (parse_document f req fs).trace = [] ∧
      (parse_document f req fs).response.status = 400 := by
  rcases req with ⟨file⟩
  rcases h with h | ⟨u, hu, hname⟩
  · simp only at h
    subst h
    exact ⟨rfl, rfl, rfl⟩
  · simp only at hu
    subst hu
    simp [parse_document, hname]

/-- C9 witness: a request with no file field leaves the filesystem
untouched and is answered 400. -/
theorem parse_document_reject_no_side_effects_witness :
    (parse_document true ⟨none⟩ emptyFS).fs = emptyFS ∧
      (parse_document true ⟨none⟩ emptyFS).trace = [] ∧
      (parse_document true ⟨none⟩ emptyFS).response.status = 400 :=
  parse_document_reject_no_side_effects true ⟨none⟩ emptyFS (Or.inl rfl)

/-- C10: the temporary path is `os.path.join('uploadresume', filename)`
on the raw client filename, so an absolute filename with a supported
extension is saved outside the upload directory: for
`"/etc/cron.d/evil.txt"` the join returns the filename itself, the
extension is supported, the handler's first side effect is a save at
that path, and the path does not start with `uploadresume/`. -/
theorem parse_document_path_escapes_upload_folder :
    osPathJoin UPLOAD_FOLDER "/etc/cron.d/evil.txt" = "/etc/cron.d/evil.txt" ∧
      pyEndsWith (pyLower "/etc/cron.d/evil.txt") ".txt" = true ∧
      ("/etc/cron.d/evil.txt".data.take 13 == "uploadresume/".data) = false ∧
      (parse_document true ⟨some ⟨"/etc/cron.d/evil.txt", txtFile "pwn"⟩⟩ emptyFS).trace.head? =
        some (Event.save "/etc/cron.d/evil.txt") := by
  refine ⟨by decide, by decide, by decide, by decide⟩
